import Mathlib

/-!
# Verification of the hydraulic press duty-cycle simulator and log pipeline

Shallow embedding of the calculation core of the repository:

* `runSimulation` and its helpers — the duty-cycle simulator from
  `src/unnamed/part_002` (the revision of `useHydraulicCalculations.ts` that
  performs input validation, samples each phase with a fixed 0.25 s step,
  and emits a single boundary sample for zero-duration phases).  A second
  revision (lines 217-372 of `src/src/hooks/useHydraulicCalculations.ts`)
  differs only in the pump-displacement `+ 1` term, the zero-duration-phase
  sampling and the end-of-phase stroke update; where the revisions disagree
  the divergence is recorded in the corresponding theorems.
* `parseGraphDataFromCSV` — the log-reconstruction pipeline from
  `src/unnamed/part_000` (the revision of `csvParser.ts` whose emitted
  record carries `velocity`, `pressure_rod` and `pressure_cap`).
* `generatePerformanceScorecard` — the comparative analytics from
  `src/src/components/DetailedSensorComparison.tsx`.

Numbers are modelled as exact rationals; `Math.PI` is embedded as the exact
rational value of the IEEE-754 double `3.141592653589793`.  JavaScript string
to number coercion at the file boundary (`toNumber`, which maps non-numeric
cells to `0`) is modelled by taking the raw row table to be numeric with
out-of-range cells defaulting to `0`.
-/

/-- The constant `Math.PI` as the exact rational value of the IEEE-754 double. -/
def jsPI : ℚ := 884279719003555 / 281474976710656

/-- The function `Math.max` on two (non-NaN) numbers.  Written as an explicit comparison
so that concrete runs of the simulator reduce inside the kernel. -/
def jsMax (a b : ℚ) : ℚ := if a ≤ b then b else a

/-- One entry of `parameters.phases`: `{ speed (mm/s), stroke (mm), time (s) }`. -/
structure PhaseSpec where
  speed : ℚ
  stroke : ℚ
  time : ℚ
deriving DecidableEq

/-- The four named phases of `HydraulicParameters.phases`. -/
structure PhaseMap where
  fastDown : PhaseSpec
  workingCycle : PhaseSpec
  holding : PhaseSpec
  fastUp : PhaseSpec
deriving DecidableEq

/-- The `HydraulicParameters` input record. -/
structure HydraulicParameters where
  cylinderBore : ℚ
  rodDiameter : ℚ
  deadLoad : ℚ
  holdingLoad : ℚ
  motorRpm : ℚ
  pumpEfficiency : ℚ
  systemLosses : ℚ
  phases : PhaseMap
deriving DecidableEq

/-- Source: `const cylinderAreaBore = (Math.PI * Math.pow(parameters.cylinderBore / 1000, 2)) / 4`. -/
def cylinderAreaBore (p : HydraulicParameters) : ℚ :=
  jsPI * (p.cylinderBore / 1000) ^ 2 / 4

/-- Source: `const rodArea = (Math.PI * Math.pow(parameters.rodDiameter / 1000, 2)) / 4`. -/
def rodArea (p : HydraulicParameters) : ℚ :=
  jsPI * (p.rodDiameter / 1000) ^ 2 / 4

/-- Source: `const annularArea = cylinderAreaBore - rodArea`. -/
def annularArea (p : HydraulicParameters) : ℚ :=
  cylinderAreaBore p - rodArea p

/-- Source: `const deadLoadN = parameters.deadLoad * 1000 * 9.81`. -/
def deadLoadN (p : HydraulicParameters) : ℚ :=
  p.deadLoad * 1000 * (981 / 100)

/-- Source: `const holdingLoadN = parameters.holdingLoad * 1000 * 9.81`. -/
def holdingLoadN (p : HydraulicParameters) : ℚ :=
  p.holdingLoad * 1000 * (981 / 100)

/-- Source: `const headLoss = parameters.systemLosses || 10` — the JavaScript `||`
falls through to `10` when `systemLosses` is `0`. -/
def headLoss (p : HydraulicParameters) : ℚ :=
  if p.systemLosses = 0 then 10 else p.systemLosses

/-- Source: `const pressureFastDown = deadLoadN / (cylinderAreaBore * 100000) + headLoss`. -/
def pressureFastDown (p : HydraulicParameters) : ℚ :=
  deadLoadN p / (cylinderAreaBore p * 100000) + headLoss p

/-- Source: `const pressureWorkingCycle = holdingLoadN / (cylinderAreaBore * 100000) + headLoss`. -/
def pressureWorkingCycle (p : HydraulicParameters) : ℚ :=
  holdingLoadN p / (cylinderAreaBore p * 100000) + headLoss p

/-- Source: `const pressureHolding = pressureWorkingCycle`. -/
def pressureHolding (p : HydraulicParameters) : ℚ :=
  pressureWorkingCycle p

/-- Source: `const pressureFastUp = deadLoadN / (annularArea * 100000) + headLoss`. -/
def pressureFastUp (p : HydraulicParameters) : ℚ :=
  deadLoadN p / (annularArea p * 100000) + headLoss p

/-- Source: `const flowFastDown = cylinderAreaBore * (parameters.phases.fastDown.speed / 1000) * 60 * 1000`. -/
def flowFastDown (p : HydraulicParameters) : ℚ :=
  cylinderAreaBore p * (p.phases.fastDown.speed / 1000) * 60 * 1000

/-- Source: `const flowWorkingCycle = cylinderAreaBore * (parameters.phases.workingCycle.speed / 1000) * 60 * 1000`. -/
def flowWorkingCycle (p : HydraulicParameters) : ℚ :=
  cylinderAreaBore p * (p.phases.workingCycle.speed / 1000) * 60 * 1000

/-- Source: `const flowHolding = 0`. -/
def flowHolding : ℚ := 0

/-- Source: `const flowFastUp = annularArea * (parameters.phases.fastUp.speed / 1000) * 60 * 1000`. -/
def flowFastUp (p : HydraulicParameters) : ℚ :=
  annularArea p * (p.phases.fastUp.speed / 1000) * 60 * 1000

/-- Source: `const maxFlow = Math.max(flowFastDown, flowWorkingCycle, flowFastUp)`. -/
def maxFlow (p : HydraulicParameters) : ℚ :=
  jsMax (flowFastDown p) (jsMax (flowWorkingCycle p) (flowFastUp p))

/-- Source: `const pumpFlowRate = maxFlow`. -/
def pumpFlowRate (p : HydraulicParameters) : ℚ := maxFlow p

/-- Source: `const pumpDisplacement = (pumpFlowRate * 1000) / parameters.motorRpm + 1`
(`part_002` line 54; the revision at `useHydraulicCalculations.ts:270` omits
the `+ 1`). -/
def pumpDisplacement (p : HydraulicParameters) : ℚ :=
  pumpFlowRate p * 1000 / p.motorRpm + 1

/-- Source: `const powerFastDownPump = (pressureFastDown * flowFastDown) / 600`. -/
def powerFastDownPump (p : HydraulicParameters) : ℚ :=
  pressureFastDown p * flowFastDown p / 600

/-- Source: `const powerFastDownMotor = powerFastDownPump / parameters.pumpEfficiency`. -/
def powerFastDownMotor (p : HydraulicParameters) : ℚ :=
  powerFastDownPump p / p.pumpEfficiency

/-- Source: `const powerWorkingCyclePump = (pressureWorkingCycle * flowWorkingCycle) / 600`. -/
def powerWorkingCyclePump (p : HydraulicParameters) : ℚ :=
  pressureWorkingCycle p * flowWorkingCycle p / 600

/-- Source: `const powerWorkingCycleMotor = powerWorkingCyclePump / parameters.pumpEfficiency`. -/
def powerWorkingCycleMotor (p : HydraulicParameters) : ℚ :=
  powerWorkingCyclePump p / p.pumpEfficiency

/-- Source: `const powerHoldingMotor = 0`. -/
def powerHoldingMotor : ℚ := 0

/-- Source: `const powerFastUpPump = (pressureFastUp * flowFastUp) / 600`. -/
def powerFastUpPump (p : HydraulicParameters) : ℚ :=
  pressureFastUp p * flowFastUp p / 600

/-- Source: `const powerFastUpMotor = powerFastUpPump / parameters.pumpEfficiency`. -/
def powerFastUpMotor (p : HydraulicParameters) : ℚ :=
  powerFastUpPump p / p.pumpEfficiency

/-- Source: `const maxMotorPower = Math.max(powerFastDownMotor, powerWorkingCycleMotor, powerFastUpMotor)`. -/
def maxMotorPower (p : HydraulicParameters) : ℚ :=
  jsMax (powerFastDownMotor p) (jsMax (powerWorkingCycleMotor p) (powerFastUpMotor p))

/-- Source: `const energyFastDown = powerFastDownMotor * (parameters.phases.fastDown.time / 3600)`. -/
def energyFastDown (p : HydraulicParameters) : ℚ :=
  powerFastDownMotor p * (p.phases.fastDown.time / 3600)

/-- Source: `const energyWorkingCycle = powerWorkingCycleMotor * (parameters.phases.workingCycle.time / 3600)`. -/
def energyWorkingCycle (p : HydraulicParameters) : ℚ :=
  powerWorkingCycleMotor p * (p.phases.workingCycle.time / 3600)

/-- Source: `const energyHolding = powerHoldingMotor * (parameters.phases.holding.time / 3600)`. -/
def energyHolding (p : HydraulicParameters) : ℚ :=
  powerHoldingMotor * (p.phases.holding.time / 3600)

/-- Source: `const energyFastUp = powerFastUpMotor * (parameters.phases.fastUp.time / 3600)`. -/
def energyFastUp (p : HydraulicParameters) : ℚ :=
  powerFastUpMotor p * (p.phases.fastUp.time / 3600)

/-- Source: `const totalEnergy = energyFastDown + energyWorkingCycle + energyHolding + energyFastUp`. -/
def totalEnergy (p : HydraulicParameters) : ℚ :=
  energyFastDown p + energyWorkingCycle p + energyHolding p + energyFastUp p

/-- Source: `const actuatorPowerFastDown = (deadLoadN * (parameters.phases.fastDown.speed / 1000)) / 1000`. -/
def actuatorPowerFastDown (p : HydraulicParameters) : ℚ :=
  deadLoadN p * (p.phases.fastDown.speed / 1000) / 1000

/-- Source: `const actuatorPowerWorking = (holdingLoadN * (parameters.phases.workingCycle.speed / 1000)) / 1000`. -/
def actuatorPowerWorking (p : HydraulicParameters) : ℚ :=
  holdingLoadN p * (p.phases.workingCycle.speed / 1000) / 1000

/-- Source: `const actuatorPowerFastUp = (deadLoadN * (parameters.phases.fastUp.speed / 1000)) / 1000`. -/
def actuatorPowerFastUp (p : HydraulicParameters) : ℚ :=
  deadLoadN p * (p.phases.fastUp.speed / 1000) / 1000

/-- Source: `const maxWorkingPressure = Math.max(pressureFastDown, pressureWorkingCycle, pressureHolding, pressureFastUp)`. -/
def maxWorkingPressure (p : HydraulicParameters) : ℚ :=
  jsMax (pressureFastDown p)
    (jsMax (pressureWorkingCycle p) (jsMax (pressureHolding p) (pressureFastUp p)))

/-- Source: `const reliefValvePressure = maxWorkingPressure * 1.2`. -/
def reliefValvePressure (p : HydraulicParameters) : ℚ :=
  maxWorkingPressure p * (6 / 5)

/-- The four phase identifiers used as keys of `parameters.phases`. -/
inductive PhaseName where
  | fastDown
  | workingCycle
  | holding
  | fastUp
deriving DecidableEq

/-- Result of `phase.name.replace(/([A-Z])/g, ' $1').replace(/^./, toUpperCase)`
on each of the four phase names. -/
def PhaseName.label : PhaseName → String
  | .fastDown => "Fast Down"
  | .workingCycle => "Working Cycle"
  | .holding => "Holding"
  | .fastUp => "Fast Up"

/-- Lookup `parameters.phases[phase.name]` — the per-phase speed/stroke/time record. -/
def phaseParams (p : HydraulicParameters) : PhaseName → PhaseSpec
  | .fastDown => p.phases.fastDown
  | .workingCycle => p.phases.workingCycle
  | .holding => p.phases.holding
  | .fastUp => p.phases.fastUp

/-- One element of the `phases` array built inside `runSimulation`:
`{ name, time, pressure, flow, motorPower, actuatorPower, idealPower }`. -/
structure PhaseEntry where
  name : PhaseName
  time : ℚ
  pressure : ℚ
  flow : ℚ
  motorPower : ℚ
  actuatorPower : ℚ
  idealPower : ℚ
deriving DecidableEq

/-- The `phases` array of `runSimulation` (`part_002` lines 75-80). -/
def phasesList (p : HydraulicParameters) : List PhaseEntry :=
  [ ⟨.fastDown, p.phases.fastDown.time, pressureFastDown p, flowFastDown p,
      powerFastDownMotor p, actuatorPowerFastDown p, powerFastDownPump p⟩,
    ⟨.workingCycle, p.phases.workingCycle.time, pressureWorkingCycle p, flowWorkingCycle p,
      powerWorkingCycleMotor p, actuatorPowerWorking p, powerWorkingCyclePump p⟩,
    ⟨.holding, p.phases.holding.time, pressureHolding p, flowHolding,
      powerHoldingMotor, 0, 0⟩,
    ⟨.fastUp, p.phases.fastUp.time, pressureFastUp p, flowFastUp p,
      powerFastUpMotor p, actuatorPowerFastUp p, powerFastUpPump p⟩ ]

/-- One emitted `SimulationDataPoint` (`part_002` interface, lines 5-17). -/
structure SimulationDataPoint where
  time : ℚ
  flow : ℚ
  pressure : ℚ
  stroke : ℚ
  motorPower : ℚ
  actuatorPower : ℚ
  phase : String
  pumpInputPower : ℚ
  actualMotorInputPower : ℚ
  actuatorOutputPower : ℚ
  idealMotorInputPower : ℚ
deriving DecidableEq

/-- Source: `const timeStep = 0.25`. -/
def timeStep : ℚ := 1 / 4

/-- Source: `const dataPointsPerPhase = phase.time > 0 ? Math.ceil(phase.time / timeStep) : 0`. -/
def dataPointsPerPhase (T : ℚ) : ℕ :=
  if 0 < T then (⌈T / timeStep⌉ : ℤ).toNat else 0

/-- The sub-step indices `i = 0..dataPointsPerPhase` that survive the loop's
`if (time > currentTime + phase.time) continue` guard, i.e. those with
`i * timeStep ≤ phase.time`. -/
def keptIndices (T : ℚ) : List ℕ :=
  (List.range (dataPointsPerPhase T + 1)).filter fun i => (i : ℚ) * timeStep ≤ T

/-- The sample pushed at sub-step `i` of a phase (`part_002` lines 94-121):
`ct` is `currentTime`, `cs` is `currentStroke` at phase entry. -/
def mkSample (ph : PhaseEntry) (pp : PhaseSpec) (ct cs : ℚ) (i : ℕ) :
    SimulationDataPoint :=
  let timeInPhase : ℚ := (i : ℚ) * timeStep
  let progress : ℚ := if 0 < ph.time then timeInPhase / ph.time else 0
  let curveFactor : ℚ := 4 * (progress - progress * progress)
  let strokeAtTime : ℚ :=
    if ph.name = .fastUp then cs - pp.speed * timeInPhase else cs + pp.speed * timeInPhase
  let pressureVariation : ℚ := ph.pressure * (2 / 100) * curveFactor
  let flowVariation : ℚ := ph.flow * (2 / 100) * curveFactor
  { time := ct + timeInPhase
    flow := ph.flow - flowVariation
    pressure := ph.pressure - pressureVariation
    stroke := jsMax 0 strokeAtTime
    motorPower := ph.motorPower
    actuatorPower := ph.actuatorPower
    phase := ph.name.label
    pumpInputPower := ph.pressure * ph.flow / 600
    actualMotorInputPower := ph.motorPower
    actuatorOutputPower := ph.actuatorPower
    idealMotorInputPower := ph.idealPower }

/-- All samples pushed while processing one phase. -/
def phaseSamples (ph : PhaseEntry) (pp : PhaseSpec) (ct cs : ℚ) :
    List SimulationDataPoint :=
  (keptIndices ph.time).map (mkSample ph pp ct cs)

/-- The mutable loop state of `runSimulation`'s phase walk:
accumulated `simulationDataPoints`, `currentTime` and `currentStroke`. -/
structure SimAcc where
  data : List SimulationDataPoint
  currentTime : ℚ
  currentStroke : ℚ
deriving DecidableEq

/-- The body of `phases.forEach(phase => ...)` (`part_002` lines 85-131):
emit the phase's samples, then update `currentStroke` by the declared stroke
(clamped at `0`) and advance `currentTime` by the declared duration. -/
def simStep (p : HydraulicParameters) (acc : SimAcc) (ph : PhaseEntry) : SimAcc :=
  let pp := phaseParams p ph.name
  { data := acc.data ++ phaseSamples ph pp acc.currentTime acc.currentStroke
    currentTime := acc.currentTime + ph.time
    currentStroke :=
      jsMax 0 (if ph.name = .fastUp then acc.currentStroke - pp.stroke
               else acc.currentStroke + pp.stroke) }

/-- The full `simulationDataPoints` array produced by the phase walk. -/
def simulationDataPoints (p : HydraulicParameters) : List SimulationDataPoint :=
  ((phasesList p).foldl (simStep p) ⟨[], 0, 0⟩).data

/-- The `cylinderArea` block of `HydraulicResults` (cm²). -/
structure CylinderAreaResult where
  bore : ℚ
  rod : ℚ
  annular : ℚ
deriving DecidableEq

/-- The `requiredPressure` block of `HydraulicResults` (bar). -/
structure RequiredPressureResult where
  fastDown : ℚ
  workingCycle : ℚ
  holding : ℚ
  fastUp : ℚ
deriving DecidableEq

/-- The `energyConsumption.perPhase` block of `HydraulicResults` (kWh). -/
structure EnergyPerPhase where
  fastDown : ℚ
  workingCycle : ℚ
  holding : ℚ
  fastUp : ℚ
deriving DecidableEq

/-- The `energyConsumption` block of `HydraulicResults`. -/
structure EnergyConsumption where
  total : ℚ
  perPhase : EnergyPerPhase
deriving DecidableEq

/-- The `HydraulicResults` summary record. -/
structure HydraulicResults where
  pumpFlowRate : ℚ
  pumpDisplacement : ℚ
  cylinderArea : CylinderAreaResult
  requiredPressure : RequiredPressureResult
  motorPower : ℚ
  maxReliefValve : ℚ
  energyConsumption : EnergyConsumption
deriving DecidableEq

/-- The `calculatedResults` record built by `runSimulation` (`part_002` lines 133-144). -/
def calculatedResults (p : HydraulicParameters) : HydraulicResults :=
  { pumpFlowRate := pumpFlowRate p
    pumpDisplacement := pumpDisplacement p
    cylinderArea :=
      ⟨cylinderAreaBore p * 10000, rodArea p * 10000, annularArea p * 10000⟩
    requiredPressure :=
      ⟨pressureFastDown p, pressureWorkingCycle p, pressureHolding p, pressureFastUp p⟩
    motorPower := maxMotorPower p
    maxReliefValve := reliefValvePressure p
    energyConsumption :=
      ⟨totalEnergy p,
        ⟨energyFastDown p, energyWorkingCycle p, energyHolding p, energyFastUp p⟩⟩ }

/-- The function `runSimulation` (`part_002` lines 25-156).  The two validation `throw`s and
the `catch` handler — which clears `results` to `null` and `simulationData`
to `[]` — are modelled by returning `Except.error` with the thrown message;
a successful run returns the summary and the sample array. -/
def runSimulation (p : HydraulicParameters) :
    Except String (HydraulicResults × List SimulationDataPoint) :=
  if p.motorRpm ≤ 0 then
    .error "Motor RPM must be greater than zero."
  else if p.pumpEfficiency ≤ 0 ∨ 1 < p.pumpEfficiency then
    .error "Pump Efficiency must be between 0 and 1."
  else
    .ok (calculatedResults p, simulationDataPoints p)

/-! ## Log reconstruction pipeline (`src/unnamed/part_000`, `parseGraphDataFromCSV`)

The raw file has already been split into a table of cells by the excluded
CSV collaborator; `toNumber` (JavaScript `Number` with `NaN ↦ 0`) is modelled
by a numeric table whose missing cells default to `0`. -/

/-- The emitted record shape of the log pipeline — the `SimulationDataPoint`
interface of the revision at `useHydraulicCalculations.ts` lines 221-235,
carrying `velocity`, `pressure_rod` and `pressure_cap`.  Renamed here to
avoid clashing with the simulator's record. -/
structure SensorDataPoint where
  time : ℚ
  stroke : ℚ
  velocity : ℚ
  pressure_rod : ℚ
  pressure_cap : ℚ
  flow : ℚ
  motorPower : ℚ
  actuatorPower : ℚ
  phase : String
  pumpInputPower : ℚ
  actualMotorInputPower : ℚ
  actuatorOutputPower : ℚ
  idealMotorInputPower : ℚ
deriving DecidableEq

/-- Cell access `toNumber(row[i])` on the numeric table: cell `i` of the row, `0` when absent. -/
def toNumberCell (row : List ℚ) (i : ℕ) : ℚ := row.getD i 0

/-- The first `map` of the pipeline (`part_000` lines 60-70): positional
extraction `{ time, stroke, velocity, pressure_rod, pressure_cap }`. -/
structure RawGraphPoint where
  time : ℚ
  stroke : ℚ
  velocity : ℚ
  pressure_rod : ℚ
  pressure_cap : ℚ
deriving DecidableEq

/-- Source: `dataRows.map(row => ({ time: toNumber(row[0]), ... }))`. -/
def graphDataOfRow (row : List ℚ) : RawGraphPoint :=
  ⟨toNumberCell row 0, toNumberCell row 1, toNumberCell row 2,
    toNumberCell row 3, toNumberCell row 4⟩

/-- The second `map` of the pipeline (`part_000` lines 73-87): the constant
65 L/min flow heuristic and the powers derived from the cap pressure. -/
def finalGraphPoint (q : RawGraphPoint) : SensorDataPoint :=
  let flow : ℚ := if 1 / 1000 < |q.velocity| then 65 else 0
  let power : ℚ := q.pressure_cap * flow / 600
  { time := q.time
    stroke := q.stroke
    velocity := q.velocity
    pressure_rod := q.pressure_rod
    pressure_cap := q.pressure_cap
    flow := flow
    actuatorPower := if 0 < power then power * (9 / 10) else 0
    motorPower := if 0 < power then power / (9 / 10) else 0
    phase := "Uploaded Data"
    pumpInputPower := 0
    actualMotorInputPower := 0
    actuatorOutputPower := 0
    idealMotorInputPower := 0 }

/-- The function `parseGraphDataFromCSV` (`part_000` lines 41-96): reject tables with
fewer than 5 rows, drop the 4 metadata/header rows, reject an empty
remainder, and map every data row through the two stages above. -/
def parseGraphDataFromCSV (table : List (List ℚ)) :
    Except String (List SensorDataPoint) :=
  if table.length < 5 then
    .error "The file appears to be missing the required header and data rows."
  else
    let dataRows := table.drop 4
    if dataRows.length = 0 then
      .error "No data rows found after the initial metadata."
    else
      .ok (dataRows.map fun row => finalGraphPoint (graphDataOfRow row))

/-! ## Comparative analytics (`DetailedSensorComparison.tsx`) -/

/-- The `PerformanceScorecard` record (`DetailedSensorComparison.tsx` lines 21-26).
`pressureStability` is a real square root, so the fields live in `ℝ`. -/
structure PerformanceScorecard where
  energyEfficiency : ℝ
  productivity : ℝ
  pressureStability : ℝ
  totalEnergy : ℝ

/-- Sum `Σ |stroke[i] − stroke[i−1]|` over consecutive samples — the
`data.reduce` at lines 35-39. -/
def totalStrokeOf (data : List SensorDataPoint) : ℚ :=
  ((data.zip data.tail).map fun pq => |pq.2.stroke - pq.1.stroke|).sum

/-- Sum `Σ motorPower[i]·(time[i] − time[i−1])/3600` — the `data.reduce` at
lines 41-45. -/
def totalMotorEnergyOf (data : List SensorDataPoint) : ℚ :=
  ((data.zip data.tail).map fun pq =>
    pq.2.motorPower * ((pq.2.time - pq.1.time) / 3600)).sum

/-- Population variance of the `pressure_cap` samples (lines 54-56). -/
def pressureVarianceOf (data : List SensorDataPoint) : ℚ :=
  let pressures := data.map SensorDataPoint.pressure_cap
  let meanPressure := pressures.sum / pressures.length
  (pressures.map fun q => (q - meanPressure) ^ 2).sum / pressures.length

/-- The function `generatePerformanceScorecard` (`DetailedSensorComparison.tsx` lines 29-60):
fewer than two samples short-circuits to the all-zero scorecard, otherwise
the four aggregate metrics are computed. -/
noncomputable def generatePerformanceScorecard (data : List SensorDataPoint) :
    PerformanceScorecard :=
  if data.length < 2 then
    ⟨0, 0, 0, 0⟩
  else
    let totalTime : ℚ :=
      (data.map SensorDataPoint.time).getLastD 0 - (data.map SensorDataPoint.time).headD 0
    let totalStroke := totalStrokeOf data
    let totalMotorEnergy := totalMotorEnergyOf data
    { energyEfficiency :=
        if 0 < totalStroke then ((totalMotorEnergy / totalStroke) * 100 : ℚ) else 0
      productivity := if 0 < totalTime then ((totalStroke / totalTime : ℚ) : ℝ) else 0
      pressureStability := Real.sqrt (pressureVarianceOf data : ℝ)
      totalEnergy := (totalMotorEnergy : ℝ) }

/-! ## Concrete inputs used by witnesses and counterexamples -/

/-- Parameters with every phase speed `0`: all flows vanish, isolating the
pump-displacement formula. -/
def dispParams : HydraulicParameters :=
  { cylinderBore := 100, rodDiameter := 50, deadLoad := 1, holdingLoad := 1,
    motorRpm := 1000, pumpEfficiency := 1 / 2, systemLosses := 10,
    phases := ⟨⟨0, 0, 0⟩, ⟨0, 0, 0⟩, ⟨0, 0, 0⟩, ⟨0, 0, 0⟩⟩ }

/-- The worked scenario of the specification (75/45 mm cylinder, 1800 rpm,
0.9 efficiency, four phases). -/
def scenarioParams : HydraulicParameters :=
  { cylinderBore := 75, rodDiameter := 45, deadLoad := 5 / 2, holdingLoad := 8,
    motorRpm := 1800, pumpEfficiency := 9 / 10, systemLosses := 10,
    phases := ⟨⟨200, 200, 1⟩, ⟨10, 50, 5⟩, ⟨0, 0, 2⟩, ⟨200, 250, 5 / 4⟩⟩ }

/-- The scenario parameters with `motorRpm = 0` (a validation failure). -/
def zeroRpmParams : HydraulicParameters :=
  { cylinderBore := 75, rodDiameter := 45, deadLoad := 5 / 2, holdingLoad := 8,
    motorRpm := 0, pumpEfficiency := 9 / 10, systemLosses := 10,
    phases := ⟨⟨200, 200, 1⟩, ⟨10, 50, 5⟩, ⟨0, 0, 2⟩, ⟨200, 250, 5 / 4⟩⟩ }

/-- A row table (4 metadata rows, then two data rows) whose data rows move at
velocities `1` and `2` under identical pressures. -/
def twoSpeedTable : List (List ℚ) :=
  [[], [], [], [], [0, 0, 1, 7, 50], [0, 0, 2, 7, 50]]

/-- A row table whose data rows all have velocity `0` but nonzero pressures. -/
def zeroVelTable : List (List ℚ) :=
  [[], [], [], [], [0, 10, 0, 7, 100], [1, 20, 0, 9, 200]]

/-! ## Helper lemmas -/

theorem jsMax_eq_max (a b : ℚ) : jsMax a b = max a b := by
  unfold jsMax
  split
  case isTrue h => exact (max_eq_right h).symm
  case isFalse h => exact (max_eq_left (le_of_not_le h)).symm

theorem jsMax_zero_nonneg (x : ℚ) : 0 ≤ jsMax 0 x := by
  rw [jsMax_eq_max]; exact le_max_left 0 x

theorem runSimulation_eq_ok {p : HydraulicParameters}
    (hrpm : 0 < p.motorRpm) (he0 : 0 < p.pumpEfficiency) (he1 : p.pumpEfficiency ≤ 1) :
    runSimulation p = .ok (calculatedResults p, simulationDataPoints p) := by
  unfold runSimulation
  rw [if_neg (not_le.mpr hrpm), if_neg]
  push_neg
  exact ⟨he0, he1⟩

theorem mem_foldl_simStep_data {p : HydraulicParameters} (phs : List PhaseEntry)
    (acc : SimAcc) {s : SimulationDataPoint}
    (hs : s ∈ (phs.foldl (simStep p) acc).data) :
    s ∈ acc.data ∨ ∃ ph ∈ phs, ∃ ct cs,
      s ∈ phaseSamples ph (phaseParams p ph.name) ct cs := by
  induction phs generalizing acc with
  | nil => exact Or.inl hs
  | cons ph rest ih =>
    rcases ih (simStep p acc ph) hs with hmem | ⟨ph', hph', ct, cs, hmem⟩
    · rcases List.mem_append.mp hmem with h | h
      · exact Or.inl h
      · exact Or.inr ⟨ph, List.mem_cons_self ph rest, acc.currentTime, acc.currentStroke, h⟩
    · exact Or.inr ⟨ph', List.mem_cons_of_mem ph hph', ct, cs, hmem⟩

theorem mem_simulationDataPoints {p : HydraulicParameters} {s : SimulationDataPoint}
    (hs : s ∈ simulationDataPoints p) :
    ∃ ph ∈ phasesList p, ∃ ct cs, s ∈ phaseSamples ph (phaseParams p ph.name) ct cs := by
  rcases mem_foldl_simStep_data (phasesList p) ⟨[], 0, 0⟩ hs with h | h
  · simp at h
  · exact h

theorem stroke_of_mem_phaseSamples {ph : PhaseEntry} {pp : PhaseSpec} {ct cs : ℚ}
    {s : SimulationDataPoint} (hs : s ∈ phaseSamples ph pp ct cs) :
    ∃ x, s.stroke = jsMax 0 x := by
  rcases List.mem_map.mp hs with ⟨i, _, rfl⟩
  exact ⟨_, rfl⟩

theorem phaseSamples_eq_cons (ph : PhaseEntry) (pp : PhaseSpec) (ct cs : ℚ)
    (hT : 0 ≤ ph.time) :
    ∃ rest, phaseSamples ph pp ct cs = mkSample ph pp ct cs 0 :: rest := by
  unfold phaseSamples keptIndices
  rw [List.range_succ_eq_map]
  rw [List.filter_cons_of_pos]
  · rw [List.map_cons]
    exact ⟨_, rfl⟩
  · exact decide_eq_true (by simpa using hT)

/-! ## Claims -/

/-- Claim C2: for every `MachineParameters` with `motorSpeed ≤ 0` or
`pumpEfficiency` outside `(0, 1]`, `runSimulation` raises a validation
failure: it returns one of the two thrown error messages and no payload at
all — in the source the `catch` handler sets `results` to `null` and
`simulationData` to `[]`, so zero samples and no summary are produced. -/
theorem claim2_validation_failure (p : HydraulicParameters)
    (h : p.motorRpm ≤ 0 ∨ p.pumpEfficiency ≤ 0 ∨ 1 < p.pumpEfficiency) :
    ∃ msg, runSimulation p = .error msg ∧
      ∀ r : HydraulicResults × List SimulationDataPoint, runSimulation p ≠ .ok r := by
  unfold runSimulation
  by_cases hm : p.motorRpm ≤ 0
  · exact ⟨_, if_pos hm, by simp [if_pos hm]⟩
  · have he : p.pumpEfficiency ≤ 0 ∨ 1 < p.pumpEfficiency := by tauto
    refine ⟨"Pump Efficiency must be between 0 and 1.", ?_, ?_⟩
    · rw [if_neg hm, if_pos he]
    · rw [if_neg hm, if_pos he]; simp

/-- Witness for C2 at the concrete scenario parameters with `motorRpm = 0`. -/
theorem claim2_validation_failure_witness :
    ∃ msg, runSimulation zeroRpmParams = .error msg ∧
      ∀ r : HydraulicResults × List SimulationDataPoint,
        runSimulation zeroRpmParams ≠ .ok r :=
  claim2_validation_failure zeroRpmParams (Or.inl (by norm_num [zeroRpmParams]))

/-- Claim C6: for every valid `MachineParameters`, the summary's relief valve
setting is exactly `1.2` times the maximum of the four per-phase required
pressures. -/
theorem claim6_relief_valve (p : HydraulicParameters)
    (hrpm : 0 < p.motorRpm) (he0 : 0 < p.pumpEfficiency) (he1 : p.pumpEfficiency ≤ 1) :
    ∃ res samples, runSimulation p = .ok (res, samples) ∧
      res.maxReliefValve = (12 / 10) *
        max (max res.requiredPressure.fastDown res.requiredPressure.workingCycle)
          (max res.requiredPressure.holding res.requiredPressure.fastUp) := by
  refine ⟨calculatedResults p, simulationDataPoints p, runSimulation_eq_ok hrpm he0 he1, ?_⟩
  show reliefValvePressure p = _
  unfold reliefValvePressure maxWorkingPressure
  rw [jsMax_eq_max, jsMax_eq_max, jsMax_eq_max]
  show _ = (12 / 10 : ℚ) * max (max (pressureFastDown p) (pressureWorkingCycle p))
    (max (pressureHolding p) (pressureFastUp p))
  rw [max_assoc]
  ring

/-- Claim C1 (code bug evaluation): at parameters whose phase speeds are all
`0`, every flow — hence `pumpFlowRate` — is `0`, so the claimed invariant
`pumpDisplacement = pumpFlowRate·1000/motorSpeed` demands `0`; the code
(`part_002` line 54, and `useHydraulicCalculations.ts` line 75 against its
own `exact Danfoss formula` comment) instead returns
`pumpFlowRate·1000/motorRpm + 1 = 1`.  The revision at
`useHydraulicCalculations.ts` line 270 computes the claimed value. -/
theorem claim1_displacement_off_by_one :
    runSimulation dispParams =
      .ok (calculatedResults dispParams, simulationDataPoints dispParams) ∧
    (calculatedResults dispParams).pumpFlowRate = 0 ∧
    (calculatedResults dispParams).pumpDisplacement = 1 ∧
    (calculatedResults dispParams).pumpDisplacement ≠
      (calculatedResults dispParams).pumpFlowRate * 1000 / dispParams.motorRpm := by
  have hflow : (calculatedResults dispParams).pumpFlowRate = 0 := by
    show pumpFlowRate dispParams = 0
    norm_num [pumpFlowRate, maxFlow, flowFastDown, flowWorkingCycle, flowFastUp,
      jsMax, dispParams]
  refine ⟨runSimulation_eq_ok ?_ ?_ ?_, hflow, ?_, ?_⟩
  · norm_num [dispParams]
  · norm_num [dispParams]
  · norm_num [dispParams]
  · show pumpDisplacement dispParams = 1
    unfold pumpDisplacement
    rw [show pumpFlowRate dispParams = 0 from hflow]
    norm_num [dispParams]
  · rw [hflow]
    show pumpDisplacement dispParams ≠ _
    unfold pumpDisplacement
    rw [show pumpFlowRate dispParams = 0 from hflow]
    norm_num [dispParams]

/-- Witness for C6 at the specification's worked scenario parameters. -/
theorem claim6_relief_valve_witness :
    ∃ res samples, runSimulation scenarioParams = .ok (res, samples) ∧
      res.maxReliefValve = (12 / 10) *
        max (max res.requiredPressure.fastDown res.requiredPressure.workingCycle)
          (max res.requiredPressure.holding res.requiredPressure.fastUp) :=
  claim6_relief_valve scenarioParams (by norm_num [scenarioParams])
    (by norm_num [scenarioParams]) (by norm_num [scenarioParams])

/-- Claim C9: with at most one sample, `generatePerformanceScorecard` returns
the all-zero scorecard.  The function is total, so no error is raised. -/
theorem claim9_degenerate_scorecard (data : List SensorDataPoint)
    (h : data.length ≤ 1) :
    generatePerformanceScorecard data = ⟨0, 0, 0, 0⟩ := by
  unfold generatePerformanceScorecard
  rw [if_pos (by omega : data.length < 2)]

/-- Witness for C9 at the empty sample list. -/
theorem claim9_degenerate_scorecard_witness :
    generatePerformanceScorecard [] = ⟨0, 0, 0, 0⟩ :=
  claim9_degenerate_scorecard [] (by decide)

/-- Claim C3: a phase whose declared duration is `0` pushes exactly one
sample — taken at local progress `0`, i.e. at the phase's start time with
the unvaried nominal flow and pressure — and leaves `currentTime` unchanged
for the next phase. -/
theorem claim3_zero_duration_phase (p : HydraulicParameters) (acc : SimAcc)
    (ph : PhaseEntry) (h : ph.time = 0) :
    (simStep p acc ph).data = acc.data ++
      [{ time := acc.currentTime, flow := ph.flow, pressure := ph.pressure,
         stroke := jsMax 0 acc.currentStroke, motorPower := ph.motorPower,
         actuatorPower := ph.actuatorPower, phase := ph.name.label,
         pumpInputPower := ph.pressure * ph.flow / 600,
         actualMotorInputPower := ph.motorPower,
         actuatorOutputPower := ph.actuatorPower,
         idealMotorInputPower := ph.idealPower }] ∧
    (simStep p acc ph).currentTime = acc.currentTime := by
  constructor
  · show acc.data ++ phaseSamples ph _ acc.currentTime acc.currentStroke = _
    congr 1
    unfold phaseSamples keptIndices dataPointsPerPhase
    rw [h]
    rw [if_neg (lt_irrefl (0 : ℚ))]
    rw [show List.range (0 + 1) = [0] from rfl]
    rw [show (List.filter (fun i => decide (((i : ℕ) : ℚ) * timeStep ≤ 0)) [0]) = [0] by
      norm_num [List.filter, timeStep]]
    simp [mkSample, timeStep, h]
  · show acc.currentTime + ph.time = acc.currentTime
    rw [h, add_zero]

/-- Witness for C3: a zero-duration holding phase entered at
`currentTime = 5`, `currentStroke = 7`. -/
theorem claim3_zero_duration_phase_witness :
    (simStep scenarioParams ⟨[], 5, 7⟩ ⟨.holding, 0, 3, 0, 0, 0, 0⟩).data = [] ++
      [{ time := 5, flow := 0, pressure := 3,
         stroke := jsMax 0 7, motorPower := 0,
         actuatorPower := 0, phase := PhaseName.label .holding,
         pumpInputPower := 3 * 0 / 600,
         actualMotorInputPower := 0,
         actuatorOutputPower := 0,
         idealMotorInputPower := 0 }] ∧
    (simStep scenarioParams ⟨[], 5, 7⟩ ⟨.holding, 0, 3, 0, 0, 0, 0⟩).currentTime = 5 :=
  claim3_zero_duration_phase scenarioParams ⟨[], 5, 7⟩ ⟨.holding, 0, 3, 0, 0, 0, 0⟩ rfl

/-- Claim C8: every sample emitted by a valid run has a non-negative
position, in every phase — the source clamps with `Math.max(0, strokeAtTime)`. -/
theorem claim8_stroke_nonneg (p : HydraulicParameters)
    (hrpm : 0 < p.motorRpm) (he0 : 0 < p.pumpEfficiency) (he1 : p.pumpEfficiency ≤ 1) :
    ∃ res samples, runSimulation p = .ok (res, samples) ∧
      ∀ s ∈ samples, 0 ≤ s.stroke := by
  refine ⟨calculatedResults p, simulationDataPoints p,
    runSimulation_eq_ok hrpm he0 he1, ?_⟩
  intro s hs
  rcases mem_simulationDataPoints hs with ⟨ph, -, ct, cs, hmem⟩
  rcases stroke_of_mem_phaseSamples hmem with ⟨x, hx⟩
  rw [hx]
  exact jsMax_zero_nonneg x

/-- Witness for C8 at the specification's worked scenario parameters. -/
theorem claim8_stroke_nonneg_witness :
    ∃ res samples, runSimulation scenarioParams = .ok (res, samples) ∧
      ∀ s ∈ samples, 0 ≤ s.stroke :=
  claim8_stroke_nonneg scenarioParams (by norm_num [scenarioParams])
    (by norm_num [scenarioParams]) (by norm_num [scenarioParams])

theorem progress_bounds (T : ℚ) (i : ℕ) (hle : (i : ℚ) * timeStep ≤ T) :
    0 ≤ (if 0 < T then (i : ℚ) * timeStep / T else 0) ∧
      (if 0 < T then (i : ℚ) * timeStep / T else 0) ≤ 1 := by
  split
  case isTrue hT =>
    constructor
    · exact div_nonneg (mul_nonneg (Nat.cast_nonneg i) (by norm_num [timeStep])) hT.le
    · rw [div_le_one hT]
      exact hle
  case isFalse hT => norm_num

theorem curveFactor_bounds {x : ℚ} (h0 : 0 ≤ x) (h1 : x ≤ 1) :
    0 ≤ 4 * (x - x * x) ∧ 4 * (x - x * x) ≤ 1 := by
  constructor
  · nlinarith
  · nlinarith [sq_nonneg (2 * x - 1)]

theorem variation_bounds {v cf : ℚ} (hv : 0 ≤ v) (h0 : 0 ≤ cf) (h1 : cf ≤ 1) :
    49 / 50 * v ≤ v - v * (2 / 100) * cf ∧ v - v * (2 / 100) * cf ≤ v := by
  constructor
  · nlinarith
  · nlinarith

/-- Claim C10: the per-sample micro-variation is one-sided.  For every sample
emitted while walking a phase whose nominal pressure and flow are
non-negative, the sample's pressure lies in `[0.98·p, p]` and its flow in
`[0.98·q, q]`: the kept sub-steps have local progress in `[0, 1]`, so
`curveFactor = 4·progress·(1−progress) ∈ [0, 1]`, and the 2%-scaled
variation is always subtracted. -/
theorem claim10_one_sided_variation (ph : PhaseEntry) (pp : PhaseSpec) (ct cs : ℚ)
    (hp : 0 ≤ ph.pressure) (hq : 0 ≤ ph.flow) :
    ∀ s ∈ phaseSamples ph pp ct cs,
      49 / 50 * ph.pressure ≤ s.pressure ∧ s.pressure ≤ ph.pressure ∧
      49 / 50 * ph.flow ≤ s.flow ∧ s.flow ≤ ph.flow := by
  intro s hs
  rcases List.mem_map.mp hs with ⟨i, hi, rfl⟩
  have hle : (i : ℚ) * timeStep ≤ ph.time :=
    of_decide_eq_true (List.mem_filter.mp hi).2
  have hprog := progress_bounds ph.time i hle
  have hcf := curveFactor_bounds hprog.1 hprog.2
  have hpr := variation_bounds hp hcf.1 hcf.2
  have hfl := variation_bounds hq hcf.1 hcf.2
  exact ⟨hpr.1, hpr.2, hfl.1, hfl.2⟩

/-- Witness for C10: the first sample of a fast-down phase with nominal
pressure `3` bar and flow `65` L/min, entered at time `0` and stroke `0`. -/
theorem claim10_one_sided_variation_witness :
    49 / 50 * (3 : ℚ) ≤
        (mkSample ⟨.fastDown, 1, 3, 65, 0, 0, 0⟩ ⟨200, 200, 1⟩ 0 0 0).pressure ∧
      (mkSample ⟨.fastDown, 1, 3, 65, 0, 0, 0⟩ ⟨200, 200, 1⟩ 0 0 0).pressure ≤ 3 ∧
      49 / 50 * (65 : ℚ) ≤
        (mkSample ⟨.fastDown, 1, 3, 65, 0, 0, 0⟩ ⟨200, 200, 1⟩ 0 0 0).flow ∧
      (mkSample ⟨.fastDown, 1, 3, 65, 0, 0, 0⟩ ⟨200, 200, 1⟩ 0 0 0).flow ≤ 65 := by
  obtain ⟨rest, hr⟩ :=
    phaseSamples_eq_cons ⟨.fastDown, 1, 3, 65, 0, 0, 0⟩ ⟨200, 200, 1⟩ 0 0 (by norm_num)
  exact claim10_one_sided_variation ⟨.fastDown, 1, 3, 65, 0, 0, 0⟩ ⟨200, 200, 1⟩ 0 0
    (by norm_num) (by norm_num) _ (hr ▸ List.mem_cons_self _ _)

theorem parseGraphDataFromCSV_eq_ok {table : List (List ℚ)} (h : 5 ≤ table.length) :
    parseGraphDataFromCSV table =
      .ok ((table.drop 4).map fun row => finalGraphPoint (graphDataOfRow row)) := by
  unfold parseGraphDataFromCSV
  rw [if_neg (by omega), if_neg (by rw [List.length_drop]; omega)]

/-- Claim C4 counterexample: on a table whose two data rows move at
velocities `1` and `2`, the pipeline emits flow `65` for both rows, so no
choice of bore/annular area can satisfy
`flow = effectiveArea·|velocity|·60000` (it would force
`A·60000 = 65 = A·2·60000`). -/
theorem claim4_counterexample :
    ¬ ∃ boreArea annularArea : ℚ, ∀ rs,
      parseGraphDataFromCSV twoSpeedTable = .ok rs → ∀ r ∈ rs,
        r.flow = (if 0 ≤ r.velocity then boreArea else annularArea) * |r.velocity| * 60000 ∧
        r.actuatorPower =
          (if 0 ≤ r.velocity then r.pressure_cap else r.pressure_rod) * 100000 *
            (if 0 ≤ r.velocity then boreArea else annularArea) * |r.velocity| / 1000 := by
  rintro ⟨A, B, h⟩
  have hok := parseGraphDataFromCSV_eq_ok
    (show 5 ≤ twoSpeedTable.length by norm_num [twoSpeedTable])
  have hdrop : twoSpeedTable.drop 4 = [[0, 0, 1, 7, 50], [0, 0, 2, 7, 50]] := rfl
  rw [hdrop] at hok
  have h1 := (h _ hok (finalGraphPoint (graphDataOfRow [0, 0, 1, 7, 50]))
    (by simp)).1
  have h2 := (h _ hok (finalGraphPoint (graphDataOfRow [0, 0, 2, 7, 50]))
    (by simp)).1
  have e1 : (finalGraphPoint (graphDataOfRow [0, 0, 1, 7, 50])).flow = 65 := by
    norm_num [finalGraphPoint, graphDataOfRow, toNumberCell]
  have e2 : (finalGraphPoint (graphDataOfRow [0, 0, 2, 7, 50])).flow = 65 := by
    norm_num [finalGraphPoint, graphDataOfRow, toNumberCell]
  have v1 : (finalGraphPoint (graphDataOfRow [0, 0, 1, 7, 50])).velocity = 1 := rfl
  have v2 : (finalGraphPoint (graphDataOfRow [0, 0, 2, 7, 50])).velocity = 2 := rfl
  rw [e1, v1] at h1
  rw [e2, v2] at h2
  norm_num at h1 h2
  linarith

/-- Claim C4 (amended): for every parsed data row the emitted flow is the
constant `65` L/min when `|velocity| > 0.001` and `0` otherwise, and the
powers are always derived from the cap pressure — `power = pCap·flow/600`,
`actuatorPower = 0.9·power` and `motorPower = power/0.9` when `power > 0`,
else `0`.  No chamber area and no direction-dependent pressure selection is
involved. -/
theorem claim4_flow_heuristic (table : List (List ℚ)) (rs : List SensorDataPoint)
    (hok : parseGraphDataFromCSV table = .ok rs) :
    ∀ r ∈ rs,
      r.flow = (if 1 / 1000 < |r.velocity| then 65 else 0) ∧
      r.actuatorPower = (if 0 < r.pressure_cap * r.flow / 600
        then r.pressure_cap * r.flow / 600 * (9 / 10) else 0) ∧
      r.motorPower = (if 0 < r.pressure_cap * r.flow / 600
        then r.pressure_cap * r.flow / 600 / (9 / 10) else 0) := by
  have hlen : 5 ≤ table.length := by
    by_contra hlt
    rw [show parseGraphDataFromCSV table =
      .error "The file appears to be missing the required header and data rows." by
        unfold parseGraphDataFromCSV; rw [if_pos (by omega)]] at hok
    exact Except.noConfusion hok
  rw [parseGraphDataFromCSV_eq_ok hlen] at hok
  obtain rfl : ((table.drop 4).map fun row => finalGraphPoint (graphDataOfRow row)) = rs :=
    by injection hok
  intro r hr
  obtain ⟨row, -, rfl⟩ := List.mem_map.mp hr
  refine ⟨rfl, ?_, ?_⟩ <;> rfl

/-- Witness for the amended C4 at the two-velocity table. -/
theorem claim4_flow_heuristic_witness :
    ∃ rs, parseGraphDataFromCSV twoSpeedTable = .ok rs ∧
      ∀ r ∈ rs,
        r.flow = (if 1 / 1000 < |r.velocity| then 65 else 0) ∧
        r.actuatorPower = (if 0 < r.pressure_cap * r.flow / 600
          then r.pressure_cap * r.flow / 600 * (9 / 10) else 0) ∧
        r.motorPower = (if 0 < r.pressure_cap * r.flow / 600
          then r.pressure_cap * r.flow / 600 / (9 / 10) else 0) :=
  ⟨_, parseGraphDataFromCSV_eq_ok (by norm_num [twoSpeedTable]),
    claim4_flow_heuristic twoSpeedTable _
      (parseGraphDataFromCSV_eq_ok (by norm_num [twoSpeedTable]))⟩

/-- Claim C7: if every row of the table has velocity `0`, every emitted
record has `flow = 0` and `actuatorPower = 0`, whatever the pressures. -/
theorem claim7_zero_velocity_zero_flow (table : List (List ℚ))
    (rs : List SensorDataPoint)
    (hok : parseGraphDataFromCSV table = .ok rs)
    (hvel : ∀ row ∈ table, row.getD 2 0 = 0) :
    ∀ r ∈ rs, r.flow = 0 ∧ r.actuatorPower = 0 := by
  have hlen : 5 ≤ table.length := by
    by_contra hlt
    rw [show parseGraphDataFromCSV table =
      .error "The file appears to be missing the required header and data rows." by
        unfold parseGraphDataFromCSV; rw [if_pos (by omega)]] at hok
    exact Except.noConfusion hok
  rw [parseGraphDataFromCSV_eq_ok hlen] at hok
  obtain rfl : ((table.drop 4).map fun row => finalGraphPoint (graphDataOfRow row)) = rs :=
    by injection hok
  intro r hr
  obtain ⟨row, hrow, rfl⟩ := List.mem_map.mp hr
  have hv : row.getD 2 0 = 0 := hvel row (List.mem_of_mem_drop hrow)
  constructor
  · show (if 1 / 1000 < |toNumberCell row 2| then (65 : ℚ) else 0) = 0
    rw [show toNumberCell row 2 = 0 from hv]
    norm_num
  · show (if 0 < toNumberCell row 4 *
        (if 1 / 1000 < |toNumberCell row 2| then (65 : ℚ) else 0) / 600
      then toNumberCell row 4 *
        (if 1 / 1000 < |toNumberCell row 2| then (65 : ℚ) else 0) / 600 * (9 / 10)
      else 0) = 0
    rw [show toNumberCell row 2 = 0 from hv]
    norm_num

/-- Witness for C7 at a two-row zero-velocity table with nonzero pressures. -/
theorem claim7_zero_velocity_zero_flow_witness :
    ∃ rs, parseGraphDataFromCSV zeroVelTable = .ok rs ∧
      ∀ r ∈ rs, r.flow = 0 ∧ r.actuatorPower = 0 :=
  ⟨_, parseGraphDataFromCSV_eq_ok (by norm_num [zeroVelTable]),
    claim7_zero_velocity_zero_flow zeroVelTable _
      (parseGraphDataFromCSV_eq_ok (by norm_num [zeroVelTable]))
      (by intro row hrow; fin_cases hrow <;> rfl)⟩

theorem keptIndices_pairwise (T : ℚ) : (keptIndices T).Pairwise (· < ·) :=
  (List.pairwise_lt_range _).filter _

theorem mkSample_time (ph : PhaseEntry) (pp : PhaseSpec) (ct cs : ℚ) (i : ℕ) :
    (mkSample ph pp ct cs i).time = ct + (i : ℚ) * timeStep := rfl

theorem phaseSamples_times_chain (ph : PhaseEntry) (pp : PhaseSpec) (ct cs : ℚ) :
    List.Chain' (· ≤ ·) ((phaseSamples ph pp ct cs).map SimulationDataPoint.time) := by
  rw [List.chain'_iff_pairwise]
  unfold phaseSamples
  rw [List.map_map]
  apply (keptIndices_pairwise ph.time).map
  intro a b hab
  show (mkSample ph pp ct cs a).time ≤ (mkSample ph pp ct cs b).time
  rw [mkSample_time, mkSample_time]
  have hc : (a : ℚ) ≤ (b : ℚ) := by exact_mod_cast hab.le
  have ht : (0 : ℚ) ≤ timeStep := by norm_num [timeStep]
  nlinarith

theorem time_bounds_of_mem_phaseSamples {ph : PhaseEntry} {pp : PhaseSpec}
    {ct cs : ℚ} {s : SimulationDataPoint} (hs : s ∈ phaseSamples ph pp ct cs) :
    ct ≤ s.time ∧ s.time ≤ ct + ph.time := by
  rcases List.mem_map.mp hs with ⟨i, hi, rfl⟩
  have hle : (i : ℚ) * timeStep ≤ ph.time :=
    of_decide_eq_true (List.mem_filter.mp hi).2
  have h0 : (0 : ℚ) ≤ (i : ℚ) * timeStep :=
    mul_nonneg (Nat.cast_nonneg i) (by norm_num [timeStep])
  rw [mkSample_time]
  constructor <;> linarith

theorem simStep_invariant (p : HydraulicParameters) (acc : SimAcc) (ph : PhaseEntry)
    (hT : 0 ≤ ph.time)
    (hchain : List.Chain' (· ≤ ·) (acc.data.map SimulationDataPoint.time))
    (hbound : ∀ s ∈ acc.data, s.time ≤ acc.currentTime) :
    List.Chain' (· ≤ ·) ((simStep p acc ph).data.map SimulationDataPoint.time) ∧
      ∀ s ∈ (simStep p acc ph).data, s.time ≤ (simStep p acc ph).currentTime := by
  have hdata : (simStep p acc ph).data =
      acc.data ++ phaseSamples ph (phaseParams p ph.name) acc.currentTime acc.currentStroke :=
    rfl
  have htime : (simStep p acc ph).currentTime = acc.currentTime + ph.time := rfl
  constructor
  · rw [hdata, List.map_append]
    apply hchain.append (phaseSamples_times_chain _ _ _ _)
    intro x hx y hy
    have hx2 : x ∈ acc.data.map SimulationDataPoint.time := by
      rcases List.mem_getLast?_eq_getLast hx with ⟨hne, rfl⟩
      exact List.getLast_mem hne
    rcases List.mem_map.mp hx2 with ⟨sx, hsx, rfl⟩
    have hy2 : y ∈ (phaseSamples ph (phaseParams p ph.name) acc.currentTime
        acc.currentStroke).map SimulationDataPoint.time := by
      rcases hy2m : ((phaseSamples ph (phaseParams p ph.name) acc.currentTime
          acc.currentStroke).map SimulationDataPoint.time).head? with - | z
      · rw [hy2m] at hy; exact absurd hy (by simp)
      · rw [hy2m] at hy
        have hz : z = y := by simpa using hy
        subst hz
        exact List.mem_of_mem_head? hy2m
    rcases List.mem_map.mp hy2 with ⟨sy, hsy, rfl⟩
    calc sx.time ≤ acc.currentTime := hbound sx hsx
      _ ≤ sy.time := (time_bounds_of_mem_phaseSamples hsy).1
  · intro s hs
    rw [htime]
    rw [hdata] at hs
    rcases List.mem_append.mp hs with h | h
    · have := hbound s h
      linarith
    · exact (time_bounds_of_mem_phaseSamples h).2

theorem phaseSamples_head_time (ph : PhaseEntry) (pp : PhaseSpec) (ct cs : ℚ)
    (hT : 0 ≤ ph.time) :
    (phaseSamples ph pp ct cs).head? = some (mkSample ph pp ct cs 0) ∧
      phaseSamples ph pp ct cs ≠ [] := by
  obtain ⟨rest, hr⟩ := phaseSamples_eq_cons ph pp ct cs hT
  rw [hr]
  exact ⟨rfl, by simp⟩

theorem foldl_simStep_chain {p : HydraulicParameters} (phs : List PhaseEntry)
    (acc : SimAcc) (hT : ∀ ph ∈ phs, 0 ≤ ph.time)
    (hchain : List.Chain' (· ≤ ·) (acc.data.map SimulationDataPoint.time))
    (hbound : ∀ s ∈ acc.data, s.time ≤ acc.currentTime) :
    List.Chain' (· ≤ ·)
      ((phs.foldl (simStep p) acc).data.map SimulationDataPoint.time) := by
  induction phs generalizing acc with
  | nil => exact hchain
  | cons ph rest ih =>
    have h := simStep_invariant p acc ph
      (hT ph (List.mem_cons_self ph rest)) hchain hbound
    exact ih (simStep p acc ph) (fun q hq => hT q (List.mem_cons_of_mem ph hq)) h.1 h.2

theorem foldl_simStep_head (p : HydraulicParameters) (phs : List PhaseEntry)
    (acc : SimAcc) (h : acc.data ≠ []) :
    (phs.foldl (simStep p) acc).data.head? = acc.data.head? ∧
      (phs.foldl (simStep p) acc).data ≠ [] := by
  induction phs generalizing acc with
  | nil => exact ⟨rfl, h⟩
  | cons ph rest ih =>
    simp only [List.foldl_cons]
    have hne : (simStep p acc ph).data ≠ [] := by
      show acc.data ++ _ ≠ []
      simp [h]
    have hh := ih (simStep p acc ph) hne
    refine ⟨?_, hh.2⟩
    rw [hh.1]
    show (acc.data ++ _).head? = acc.data.head?
    obtain ⟨a, t, hat⟩ := List.exists_cons_of_ne_nil h
    rw [hat, List.cons_append]
    rfl

/-- Claim C5: for every valid `MachineParameters` (positive motor speed,
efficiency in `(0, 1]`, non-negative phase durations), `runSimulation`
succeeds with a non-empty sample sequence whose time values start at `0`
and are non-decreasing across the whole sequence, including across phase
boundaries and zero-duration phases. -/
theorem claim5_times_monotone (p : HydraulicParameters)
    (hrpm : 0 < p.motorRpm) (he0 : 0 < p.pumpEfficiency) (he1 : p.pumpEfficiency ≤ 1)
    (ht1 : 0 ≤ p.phases.fastDown.time) (ht2 : 0 ≤ p.phases.workingCycle.time)
    (ht3 : 0 ≤ p.phases.holding.time) (ht4 : 0 ≤ p.phases.fastUp.time) :
    ∃ res samples, runSimulation p = .ok (res, samples) ∧ samples ≠ [] ∧
      (samples.map SimulationDataPoint.time).head? = some 0 ∧
      List.Chain' (· ≤ ·) (samples.map SimulationDataPoint.time) := by
  refine ⟨calculatedResults p, simulationDataPoints p,
    runSimulation_eq_ok hrpm he0 he1, ?_, ?_, ?_⟩
  case refine_3 =>
    show List.Chain' (· ≤ ·)
      (((phasesList p).foldl (simStep p) ⟨[], 0, 0⟩).data.map SimulationDataPoint.time)
    apply foldl_simStep_chain (phasesList p) ⟨[], 0, 0⟩ ?_ (by simp) (by simp)
    intro ph hph
    unfold phasesList at hph
    simp only [List.mem_cons, List.not_mem_nil, or_false] at hph
    rcases hph with rfl | rfl | rfl | rfl
    · exact ht1
    · exact ht2
    · exact ht3
    · exact ht4
  all_goals
    obtain ⟨rest1, hrest1⟩ := phaseSamples_eq_cons
      ⟨.fastDown, p.phases.fastDown.time, pressureFastDown p, flowFastDown p,
        powerFastDownMotor p, actuatorPowerFastDown p, powerFastDownPump p⟩
      (phaseParams p .fastDown) 0 0 ht1
  all_goals
    have ha1 : (simStep p ⟨[], 0, 0⟩
        ⟨.fastDown, p.phases.fastDown.time, pressureFastDown p, flowFastDown p,
          powerFastDownMotor p, actuatorPowerFastDown p, powerFastDownPump p⟩).data =
        mkSample
          ⟨.fastDown, p.phases.fastDown.time, pressureFastDown p, flowFastDown p,
            powerFastDownMotor p, actuatorPowerFastDown p, powerFastDownPump p⟩
          (phaseParams p .fastDown) 0 0 0 :: rest1 := by
      show [] ++ phaseSamples _ (phaseParams p .fastDown) 0 0 = _
      rw [List.nil_append, hrest1]
  all_goals
    have hne1 : (simStep p ⟨[], 0, 0⟩
        ⟨.fastDown, p.phases.fastDown.time, pressureFastDown p, flowFastDown p,
          powerFastDownMotor p, actuatorPowerFastDown p, powerFastDownPump p⟩).data ≠ [] := by
      rw [ha1]; simp
  all_goals
    have hfold := foldl_simStep_head p
      [⟨.workingCycle, p.phases.workingCycle.time, pressureWorkingCycle p,
          flowWorkingCycle p, powerWorkingCycleMotor p, actuatorPowerWorking p,
          powerWorkingCyclePump p⟩,
        ⟨.holding, p.phases.holding.time, pressureHolding p, flowHolding,
          powerHoldingMotor, 0, 0⟩,
        ⟨.fastUp, p.phases.fastUp.time, pressureFastUp p, flowFastUp p,
          powerFastUpMotor p, actuatorPowerFastUp p, powerFastUpPump p⟩]
      (simStep p ⟨[], 0, 0⟩
        ⟨.fastDown, p.phases.fastDown.time, pressureFastDown p, flowFastDown p,
          powerFastDownMotor p, actuatorPowerFastDown p, powerFastDownPump p⟩) hne1
  case refine_1 =>
    show ((phasesList p).foldl (simStep p) ⟨[], 0, 0⟩).data ≠ []
    exact hfold.2
  case refine_2 =>
    rw [List.head?_map]
    show (((phasesList p).foldl (simStep p) ⟨[], 0, 0⟩).data.head?).map _ = some 0
    rw [show ((phasesList p).foldl (simStep p) ⟨[], 0, 0⟩).data.head? =
        (simStep p ⟨[], 0, 0⟩
          ⟨.fastDown, p.phases.fastDown.time, pressureFastDown p, flowFastDown p,
            powerFastDownMotor p, actuatorPowerFastDown p, powerFastDownPump p⟩).data.head?
      from hfold.1]
    rw [ha1]
    show some (mkSample _ (phaseParams p .fastDown) 0 0 0).time = some 0
    rw [mkSample_time]
    norm_num

/-- Witness for C5 at the specification's worked scenario parameters. -/
theorem claim5_times_monotone_witness :
    ∃ res samples, runSimulation scenarioParams = .ok (res, samples) ∧ samples ≠ [] ∧
      (samples.map SimulationDataPoint.time).head? = some 0 ∧
      List.Chain' (· ≤ ·) (samples.map SimulationDataPoint.time) :=
  claim5_times_monotone scenarioParams (by norm_num [scenarioParams])
    (by norm_num [scenarioParams]) (by norm_num [scenarioParams])
    (by norm_num [scenarioParams]) (by norm_num [scenarioParams])
    (by norm_num [scenarioParams]) (by norm_num [scenarioParams])
